import Mathlib

/-!
Verification development for the quick_latex API server (src/api/server.py).
The definitions below are a shallow embedding of the compilation dispatch
path, the process runner, the quality output parser, the log scraper and the
project deletion handler. External effects (subprocess results, filesystem
probes) are passed in explicitly as values of small world types, and each
function mirrors the corresponding Python code line by line.
-/

namespace QuickLatex

/-- Result of one completed subprocess.run call: exit code and captured
streams (server.py uses capture_output=True, text=True). -/
structure ProcResult where
  returncode : Int
  stdout : String
  stderr : String
  deriving Repr, DecidableEq

/-- Outcome of attempting one subprocess.run call inside a compilation
sequence: either a normal completion, or a raised exception (for example
subprocess.TimeoutExpired or a launch failure) carrying the Python text
str(e). An exception is caught by the enclosing except-Exception block. -/
inductive PassOutcome where
  | ok : ProcResult → PassOutcome
  | exn : String → PassOutcome
  deriving Repr, DecidableEq

/-- The dict returned by run_command, run_docker_compilation and
run_direct_latex_compilation: keys success, returncode, stdout, stderr. -/
structure CmdResult where
  success : Bool
  returncode : Int
  stdout : String
  stderr : String
  deriving Repr, DecidableEq

/-- One external process invocation: the argv list and the timeout argument
handed to subprocess.run; none when the call site passes no timeout at all. -/
structure Invocation where
  cmd : List String
  timeout : Option Nat
  deriving Repr, DecidableEq

/-- The world a compilation sequence runs against: the outcome of each
subprocess invocation the sequence may attempt (first pass, bibtex pass,
post-bibtex recompile, second pass) together with the two filesystem probes
the code makes (aux file present after pass one, pdf present at the end). -/
structure CompileWorld where
  pass1 : PassOutcome
  bibPass : PassOutcome
  pass2 : PassOutcome
  pass3 : PassOutcome
  aux_exists : Bool
  pdf_exists : Bool
  deriving Repr, DecidableEq

/-- Python "\n".join(lines). -/
def joinNL (ls : List String) : String :=
  String.intercalate "\n" ls

/-- Python str(b) for a bool, as interpolated by an f-string. -/
def py_bool_repr (b : Bool) : String :=
  if b then "True" else "False"

/-- Python pattern: if result.stderr: stderr_lines.append(result.stderr).
The guard is string truthiness, that is nonemptiness. -/
def stderr_append (ls : List String) (s : String) : List String :=
  if s ≠ "" then ls ++ [s] else ls

/-- Does the second list occur at the head of the first (character lists). -/
def subAt : List Char → List Char → Bool
  | _, [] => true
  | [], _ :: _ => false
  | a :: s, b :: t => a == b && subAt s t

/-- Does the second list occur anywhere inside the first (character lists). -/
def hasSub : List Char → List Char → Bool
  | _, [] => true
  | [], _ :: _ => false
  | a :: s, b :: t => subAt (a :: s) (b :: t) || hasSub s (b :: t)

/-- Model of the Python operator test: sub in s, for strings. -/
def strContains (s sub : String) : Bool :=
  hasSub s.data sub.data

/-- Model of Python str.startswith. -/
def strStartsWith (s p : String) : Bool :=
  subAt s.data p.data

/-- Model of Python str.strip(): drop whitespace from both ends. -/
def py_strip (s : String) : String :=
  ⟨((s.data.dropWhile Char.isWhitespace).reverse.dropWhile Char.isWhitespace).reverse⟩

/-- Worker for pySplit: fuel-driven scan of the character list. At each
position, when the separator occurs there the accumulated segment is emitted
and the separator consumed, otherwise one character moves to the
accumulator. The fuel starts above the list length, which one step of either
kind decreases, so the zero-fuel case is unreachable for nonempty
separators. -/
def pySplitAux (sep : List Char) : Nat → List Char → List Char → List (List Char)
  | 0, rest, acc => [acc.reverse ++ rest]
  | _ + 1, [], acc => [acc.reverse]
  | fuel + 1, c :: rest, acc =>
    if subAt (c :: rest) sep then
      acc.reverse :: pySplitAux sep fuel (List.drop sep.length (c :: rest)) []
    else
      pySplitAux sep fuel rest (c :: acc)

/-- Model of Python s.split(sep) for a nonempty separator: greedy
left-to-right scan, adjacent separators produce empty segments. -/
def pySplit (s sep : String) : List String :=
  (pySplitAux sep.data (s.data.length + 1) s.data []).map fun l => ⟨l⟩

/-- Value of a list of decimal digit characters. -/
def natOfDigits : List Char → Nat → Nat
  | [], acc => acc
  | c :: rest, acc => natOfDigits rest (acc * 10 + (c.toNat - 48))

/-- Continuation of py_digits after the first digit: digits, with single
underscores allowed strictly between digits. -/
def py_digits_rest : List Char → Bool
  | [] => true
  | '_' :: rest =>
    match rest with
    | [] => false
    | c :: rest2 => c.isDigit && py_digits_rest rest2
  | c :: rest => c.isDigit && py_digits_rest rest

/-- The digit grammar accepted by Python int() after the optional sign:
digit followed by digits with single underscores strictly between digits
(int accepts 1_0 but rejects _1, 1_, and 1__0). -/
def py_digits : List Char → Bool
  | [] => false
  | c :: rest => c.isDigit && py_digits_rest rest

/-- Model of Python str.lower(): characterwise lowering. Char.toLower lowers
the ASCII range, which covers every character of the search words used by the
code (Error, error); no non-ASCII character lowers onto those letters. -/
def strToLower (s : String) : String :=
  ⟨s.data.map Char.toLower⟩

/-- Outcome of the single subprocess.run call made by the generic branch of
run_command: completion, subprocess.TimeoutExpired, or some other raised
exception with message str(e). -/
inductive GenericOutcome where
  | completed : ProcResult → GenericOutcome
  | timedOut : GenericOutcome
  | raised : String → GenericOutcome
  deriving Repr, DecidableEq

/-- server.py lines 73-101: the generic branch of run_command. One
subprocess.run call with timeout=300; on normal completion success is the
returncode test, on subprocess.TimeoutExpired the fixed timeout record is
returned, on any other exception the record carries str(e). Totality of this
function models the fact that run_command never lets an exception escape.
The second component records the invocation that was attempted. -/
def run_command_core (cmd : List String) (o : GenericOutcome) :
    CmdResult × List Invocation :=
  match o with
  | .completed r => (⟨r.returncode == 0, r.returncode, r.stdout, r.stderr⟩, [⟨cmd, some 300⟩])
  | .timedOut => (⟨false, -1, "", "Command timed out after 5 minutes"⟩, [⟨cmd, some 300⟩])
  | .raised msg => (⟨false, -1, "", msg⟩, [⟨cmd, some 300⟩])

/-- server.py line 71: run_command routes to run_docker_compilation exactly
when the first argv element contains the text compile.sh. -/
def cmd_targets_compile_sh (cmd : List String) : Bool :=
  match cmd with
  | [] => false
  | c0 :: _ => strContains c0 "compile.sh"

/-- The two execution paths reachable from run_docker_compilation
(server.py lines 139-185): the latex-engine container bridge taken when the
server itself runs inside Docker, and the one-shot docker compose service
run taken otherwise. -/
inductive ExecPath where
  | directEngine
  | composeService
  deriving Repr, DecidableEq

/-- server.py line 140: is_in_docker = Path("/app").exists() and
str(PROJECT_ROOT).startswith("/app"). -/
def is_in_docker (app_mount_exists : Bool) (project_root : String) : Bool :=
  app_mount_exists && strStartsWith project_root "/app"

/-- server.py lines 142-185: branch selection of run_docker_compilation.
When is_in_docker holds the code calls run_direct_latex_compilation,
otherwise it builds a docker compose command. -/
def dispatch_env (app_mount_exists : Bool) (project_root : String) : ExecPath :=
  if is_in_docker app_mount_exists project_root then ExecPath.directEngine
  else ExecPath.composeService

/-- server.py lines 176-185: the compose compile command. work_rel stands for
work_dir.relative_to(PROJECT_ROOT) and tex_name for tex_file.name. -/
def docker_compose_compile_cmd (work_rel compiler tex_name : String) : List String :=
  ["docker", "compose", "run", "--rm",
   "-w", "/workspace/" ++ work_rel,
   "latex", compiler,
   "-interaction=nonstopmode", "-halt-on-error",
   "-output-directory=output", tex_name]

/-- server.py lines 216-221: the compose bibtex command. output_rel stands
for output_dir.relative_to(PROJECT_ROOT). -/
def docker_compose_bibtex_cmd (output_rel base_name : String) : List String :=
  ["docker", "compose", "run", "--rm",
   "-w", "/workspace/" ++ output_rel,
   "latex", "bibtex", base_name]

/-- server.py lines 287-294: the command built by
run_direct_latex_compilation. It runs docker exec into the sibling container
api-latex-engine-1; output_rel and tex_rel stand for the paths made relative
to /app. -/
def direct_compile_cmd (output_rel tex_rel compiler : String) : List String :=
  ["docker", "exec", "api-latex-engine-1", compiler,
   "-interaction=nonstopmode", "-halt-on-error",
   "-output-directory=/workspace/" ++ output_rel,
   "/workspace/" ++ tex_rel]

/-- server.py lines 324-328: the bibtex command of
run_direct_latex_compilation, again a docker exec bridge. -/
def direct_bibtex_cmd (output_rel base_name : String) : List String :=
  ["docker", "exec", "api-latex-engine-1", "bibtex",
   "/workspace/" ++ output_rel ++ "/" ++ base_name]

/-- The except-Exception fallback dict of the two compilation functions
(server.py lines 268-274 and 372-378): success false, returncode 1, empty
stdout, and the label followed by str(e) in stderr. -/
def exn_result (err_label msg : String) : CmdResult :=
  ⟨false, 1, "", err_label ++ msg⟩

/-- Final artifact check, server.py lines 255-266 and 359-370: success is
exactly the presence of output/BASENAME.pdf, and the returned exit code is
derived from that presence rather than from any pass. -/
def seq_finale (pdf_exists : Bool) (stdoutL stderrL : List String)
    (trace : List Invocation) : CmdResult × List Invocation :=
  let stdoutL2 := stdoutL ++ ["✅ Compilation completed, PDF exists: " ++ py_bool_repr pdf_exists]
  (⟨pdf_exists, if pdf_exists then 0 else 1, joinNL stdoutL2, joinNL stderrL⟩, trace)

/-- Second full pass when quick mode is off, server.py lines 243-253 and
348-357. Note that this subprocess.run call carries no timeout argument and
that its exit code is ignored. -/
def seq_second_pass (err_label : String) (compile_cmd : List String) (quick : Bool)
    (pass3 : PassOutcome) (pdf_exists : Bool) (stdoutL stderrL : List String)
    (trace : List Invocation) : CmdResult × List Invocation :=
  if !quick then
    match pass3 with
    | .exn e => (exn_result err_label e, trace ++ [⟨compile_cmd, none⟩])
    | .ok r3 =>
        seq_finale pdf_exists (stdoutL ++ [r3.stdout]) (stderr_append stderrL r3.stderr)
          (trace ++ [⟨compile_cmd, none⟩])
  else
    seq_finale pdf_exists stdoutL stderrL trace

/-- BibTeX stage, server.py lines 213-241 and 321-346: entered only when
use_bibtex is set and the aux file exists. The bibtex call and the recompile
that follows it carry no timeout argument and their exit codes are ignored.
The incoming trace at this point is always the single first-pass invocation
with its 180 second timeout. -/
def seq_bib_stage (err_label : String) (compile_cmd bib_cmd : List String)
    (use_bibtex quick : Bool) (w : CompileWorld) (stdoutL stderrL : List String) :
    CmdResult × List Invocation :=
  if use_bibtex && w.aux_exists then
    match w.bibPass with
    | .exn e => (exn_result err_label e, [⟨compile_cmd, some 180⟩, ⟨bib_cmd, none⟩])
    | .ok rb =>
        let stdoutL2 := stdoutL ++ ["BibTeX: " ++ rb.stdout]
        let stderrL2 := stderr_append stderrL rb.stderr
        match w.pass2 with
        | .exn e =>
            (exn_result err_label e,
             [⟨compile_cmd, some 180⟩, ⟨bib_cmd, none⟩, ⟨compile_cmd, none⟩])
        | .ok r2 =>
            seq_second_pass err_label compile_cmd quick w.pass3 w.pdf_exists
              (stdoutL2 ++ [r2.stdout]) (stderr_append stderrL2 r2.stderr)
              [⟨compile_cmd, some 180⟩, ⟨bib_cmd, none⟩, ⟨compile_cmd, none⟩]
  else
    seq_second_pass err_label compile_cmd quick w.pass3 w.pdf_exists stdoutL stderrL
      [⟨compile_cmd, some 180⟩]

/-- Shared body of run_docker_compilation lines 187-274 (compose branch) and
run_direct_latex_compilation lines 296-378, which are verbatim duplicates in
the source apart from the banner line, the error label and the argv lists.
The first pass runs with timeout=180 (line 197 and line 305); a nonzero exit
of the first pass aborts the sequence immediately (lines 204-210 and
312-318); an exception anywhere is converted by the except block into the
fallback record. -/
def compile_sequence (banner err_label : String) (compile_cmd bib_cmd : List String)
    (use_bibtex quick : Bool) (w : CompileWorld) : CmdResult × List Invocation :=
  match w.pass1 with
  | .exn e => (exn_result err_label e, [⟨compile_cmd, some 180⟩])
  | .ok r1 =>
    let stdoutL := [banner, r1.stdout]
    let stderrL := stderr_append [] r1.stderr
    if r1.returncode ≠ 0 then
      (⟨false, r1.returncode, joinNL stdoutL, joinNL stderrL⟩, [⟨compile_cmd, some 180⟩])
    else
      seq_bib_stage err_label compile_cmd bib_cmd use_bibtex quick w stdoutL stderrL

/-- server.py lines 187-274: the compose-service compilation sequence. -/
def run_docker_compilation_seq (docker_cmd bibtex_docker_cmd : List String)
    (use_bibtex quick : Bool) (w : CompileWorld) : CmdResult × List Invocation :=
  compile_sequence "🔄 Compilation via Docker" "Docker compilation error: "
    docker_cmd bibtex_docker_cmd use_bibtex quick w

/-- server.py lines 277-378: the latex-engine container compilation
sequence. -/
def run_direct_latex_compilation_seq (compile_cmd bibtex_cmd : List String)
    (use_bibtex quick : Bool) (w : CompileWorld) : CmdResult × List Invocation :=
  compile_sequence "🔄 Compilation via latex-engine container" "Direct compilation error: "
    compile_cmd bibtex_cmd use_bibtex quick w

/-- The subprocess call completed (no exception was raised). -/
def passOk : PassOutcome → Bool
  | .ok _ => true
  | .exn _ => false

/-- The subprocess call completed with exit code 0. -/
def passExitZero : PassOutcome → Bool
  | .ok r => r.returncode == 0
  | .exn _ => false

/-- The first pass exits 0 and every invocation the sequence then attempts
completes without raising, so control reaches the final artifact check. -/
def seq_completes (use_bibtex quick : Bool) (w : CompileWorld) : Bool :=
  passExitZero w.pass1 &&
    (if use_bibtex && w.aux_exists then passOk w.bibPass && passOk w.pass2 else true) &&
    (if !quick then passOk w.pass3 else true)

/-- Number of invocations in a trace whose argv equals the compile command,
that is the number of compiler passes issued. -/
def countCompilePasses (compile_cmd : List String) (tr : List Invocation) : Nat :=
  tr.countP (fun inv => inv.cmd == compile_cmd)

/-- server.py line 800: the error marker phrase. -/
def err_marker : String := "❌ エラー:"

/-- server.py line 805: the warning marker phrase (two spaces after the
emoji, exactly as in the source). -/
def warn_marker : String := "⚠️  警告:"

/-- Model of Python int(s): strip surrounding whitespace, allow one optional
ASCII sign, then ASCII decimal digits with single-underscore grouping
strictly between digits, exactly as int() accepts (int of 1_0 is 10); the
underscores are ignored for the value. Returns none when int() would raise
ValueError. Non-ASCII Unicode decimal digits, which int() also accepts, are
outside the model; the toolchain output parsed here never contains them. -/
def py_int (s : String) : Option Int :=
  let t := (py_strip s).data
  let core := if strStartsWith ⟨t⟩ "-" || strStartsWith ⟨t⟩ "+" then t.drop 1 else t
  if py_digits core then
    some (if strStartsWith ⟨t⟩ "-" then
            -(natOfDigits (core.filter (fun c => c != '_')) 0 : Int)
          else (natOfDigits (core.filter (fun c => c != '_')) 0 : Int))
  else none

/-- server.py lines 802 and 807:
int(line.split(marker)[1].split(counterSuffix)[0].strip()), where the
counter suffix is the character 個. Index [1] of a Python split is the
segment between the first and second occurrence of the separator, and index
[0] the segment before the first occurrence. Returns none when int() would
raise, which the code turns into a silent skip. -/
def marker_count (marker line : String) : Option Int :=
  py_int (py_strip ((pySplit ((pySplit line marker).getD 1 "") "個").getD 0 ""))

/-- Parser state of the quality check output loop: the two counters and the
collected suggestion lines. -/
structure QualityScan where
  errors : Int
  warnings : Int
  suggestions : List String
  deriving Repr, DecidableEq

/-- server.py lines 799-811: one iteration of the loop over output lines.
The error marker branch is tried first, then the warning marker branch, then
the suggestion branch on lines whose stripped form starts with one of the
five ordinals; a failed int() leaves the state unchanged. -/
def quality_scan_line (st : QualityScan) (line : String) : QualityScan :=
  if strContains line err_marker then
    match marker_count err_marker line with
    | some n => ⟨n, st.warnings, st.suggestions⟩
    | none => st
  else if strContains line warn_marker then
    match marker_count warn_marker line with
    | some n => ⟨st.errors, n, st.suggestions⟩
    | none => st
  else if strStartsWith (py_strip line) "1." || strStartsWith (py_strip line) "2."
      || strStartsWith (py_strip line) "3." || strStartsWith (py_strip line) "4."
      || strStartsWith (py_strip line) "5." then
    ⟨st.errors, st.warnings, st.suggestions ++ [py_strip line]⟩
  else st

/-- server.py lines 794-811: split the tool stdout on newlines and run the
scan loop from the initial state errors=0, warnings=0, suggestions=[]. -/
def parse_quality_output (out : String) : QualityScan :=
  (pySplit out "\n").foldl quality_scan_line ⟨0, 0, []⟩

/-- server.py line 813: quality_score = max(0, 100 - errors*20 - warnings*5). -/
def quality_score (errors warnings : Int) : Int :=
  max 0 (100 - errors * 20 - warnings * 5)

/-- server.py lines 814-816: the level thresholds. -/
def quality_level (score : Int) : String :=
  if score ≥ 90 then "excellent"
  else if score ≥ 70 then "good"
  else if score ≥ 50 then "needs_improvement"
  else "poor"

/-- Condition under which a line lands in suggestions: it contains neither
marker phrase (those branches are tried first) and its stripped form starts
with one of the five ordinals. -/
def suggestion_cond (line : String) : Bool :=
  !strContains line err_marker && !strContains line warn_marker &&
    (strStartsWith (py_strip line) "1." || strStartsWith (py_strip line) "2."
      || strStartsWith (py_strip line) "3." || strStartsWith (py_strip line) "4."
      || strStartsWith (py_strip line) "5.")

/-- Condition under which a line overwrites the error count: it contains the
error marker and the extracted text parses as an integer. -/
def sets_error_count (line : String) : Bool :=
  strContains line err_marker && (marker_count err_marker line).isSome

/-- Condition under which a line overwrites the warning count: it does not
contain the error marker (that branch is tried first), contains the warning
marker, and the extracted text parses as an integer. -/
def sets_warning_count (line : String) : Bool :=
  !strContains line err_marker && strContains line warn_marker &&
    (marker_count warn_marker line).isSome

/-- Data object assembled by the quality check handler on the success path
(server.py lines 818-831). -/
structure QualityCheckData where
  quality_score : Int
  quality_level : String
  errors : Int
  warnings : Int
  suggestions : List String
  full_output : String
  check_successful : Bool
  deriving Repr, DecidableEq

/-- Envelope returned by the quality check handler: HTTP status, the
success flag of the envelope, the message, and the data object when one is
produced. -/
structure QualityCheckResponse where
  status : Nat
  success : Bool
  message : String
  data : Option QualityCheckData
  deriving Repr, DecidableEq

/-- server.py lines 767-831: the quality check handler after the two input
validations. file_path_given models data.get with a file_path present;
file_exists models the full_path.exists() probe; result is what run_command
returned for the check-quality script. On the main path the envelope is
always success=true and the script result only lands in check_successful. -/
def quality_check_handler (file_path_given file_exists : Bool) (result : CmdResult) :
    QualityCheckResponse :=
  if !file_path_given then ⟨400, false, "file_path is required", none⟩
  else if !file_exists then ⟨404, false, "File not found", none⟩
  else
    let scan := parse_quality_output result.stdout
    let score := quality_score scan.errors scan.warnings
    ⟨200, true, "Quality check completed",
      some ⟨score, quality_level score, scan.errors, scan.warnings,
            scan.suggestions, result.stdout, result.success⟩⟩

/-- server.py line 721: the predicate of the error line loop, exactly as in
the code: startswith bang, or contains Error, or the lowered line contains
error. -/
def error_line_cond (line : String) : Bool :=
  strStartsWith line "!" || strContains line "Error" || strContains (strToLower line) "error"

/-- The condition as the claim phrases it: the line begins with the TeX
error marker, or contains the word error case-insensitively. -/
def spec_error_cond (line : String) : Bool :=
  strStartsWith line "!" || strContains (strToLower line) "error"

/-- server.py lines 719-722: collect the stripped matching lines in order. -/
def scan_error_lines : List String → List String
  | [] => []
  | line :: rest =>
    if error_line_cond line then py_strip line :: scan_error_lines rest
    else scan_error_lines rest

/-- server.py lines 713-730: the log scraping step. none models a missing or
unreadable log file; in both cases the code leaves log_info as None, so no
error lines are produced and no failure is raised. On a readable log the
code splits on newlines, collects matching lines, and keeps the first 10. -/
def log_error_lines (log : Option String) : List String :=
  match log with
  | none => []
  | some content => (scan_error_lines (pySplit content "\n")).take 10

/-- Minimal filesystem for the deletion handler: the set of directory paths
and the set of file paths, as lists. -/
structure Fs where
  dirs : List String
  files : List String
  deriving Repr, DecidableEq

/-- Path.exists(): the path names a directory or a file. -/
def fsExists (fs : Fs) (p : String) : Bool :=
  fs.dirs.contains p || fs.files.contains p

/-- shutil.rmtree(p): removes the directory p and everything under it. -/
def rmtree (fs : Fs) (p : String) : Fs :=
  ⟨fs.dirs.filter (fun d => !(d == p || strStartsWith d (p ++ "/"))),
   fs.files.filter (fun f => !(strStartsWith f (p ++ "/")))⟩

/-- Status triple of a plain handler response: HTTP status code, envelope
success flag, envelope message. -/
structure HandlerStatus where
  status : Nat
  success : Bool
  message : String
  deriving Repr, DecidableEq

/-- server.py lines 1002-1048: the deletion handler. Guards in source order:
missing path gives 404; a non-directory gives 400; then main_tex.exists()
is a Path.exists probe — true for a file or for a directory entry named
main.tex, hence modelled with fsExists over both components — and when it
fails the handler gives 400 Invalid project directory and returns before
any mutation; only the last branch calls shutil.rmtree. The returned
filesystem is the state after the handler. -/
def delete_project (root : String) (fs : Fs) (project_path : String) :
    HandlerStatus × Fs :=
  let full_path := root ++ "/" ++ project_path
  if !fsExists fs full_path then
    (⟨404, false, "Project not found"⟩, fs)
  else if !(fs.dirs.contains full_path) then
    (⟨400, false, "Path is not a directory"⟩, fs)
  else if !fsExists fs (full_path ++ "/main.tex") then
    (⟨400, false, "Invalid project directory"⟩, fs)
  else
    (⟨200, true, "Project deleted successfully"⟩, rmtree fs full_path)

/-! Helper lemmas about the compilation sequence. -/

theorem seq_finale_success (pdf : Bool) (so se : List String) (tr : List Invocation) :
    (seq_finale pdf so se tr).1.success = pdf := rfl

theorem seq_finale_trace (pdf : Bool) (so se : List String) (tr : List Invocation) :
    (seq_finale pdf so se tr).2 = tr := rfl

theorem seq_second_pass_success (el : String) (cc : List String) (q : Bool)
    (p3 : PassOutcome) (pdf : Bool) (so se : List String) (tr : List Invocation)
    (h : q = false → passOk p3 = true) :
    (seq_second_pass el cc q p3 pdf so se tr).1.success = pdf := by
  unfold seq_second_pass
  cases q with
  | false =>
    cases p3 with
    | ok r3 => simp [seq_finale_success]
    | exn e => have := h rfl; simp [passOk] at this
  | true => simp [seq_finale_success]

theorem seq_second_pass_trace (el : String) (cc : List String) (q : Bool)
    (p3 : PassOutcome) (pdf : Bool) (so se : List String) (tr : List Invocation) :
    (seq_second_pass el cc q p3 pdf so se tr).2 =
      if !q then tr ++ [⟨cc, none⟩] else tr := by
  unfold seq_second_pass
  cases q <;> cases p3 <;> simp [seq_finale_trace]

theorem seq_bib_stage_success (el : String) (cc bc : List String) (b q : Bool)
    (w : CompileWorld) (so se : List String)
    (hbib : (b && w.aux_exists) = true → passOk w.bibPass = true ∧ passOk w.pass2 = true)
    (h3 : q = false → passOk w.pass3 = true) :
    (seq_bib_stage el cc bc b q w so se).1.success = w.pdf_exists := by
  unfold seq_bib_stage
  cases hba : b && w.aux_exists with
  | false =>
    simp only [Bool.false_eq_true, if_false]
    exact seq_second_pass_success el cc q w.pass3 w.pdf_exists _ _ _ h3
  | true =>
    obtain ⟨h1, h2⟩ := hbib hba
    simp only [if_true]
    cases hb : w.bibPass with
    | exn e => rw [hb] at h1; simp [passOk] at h1
    | ok rb =>
      dsimp only
      cases hp2 : w.pass2 with
      | exn e => rw [hp2] at h2; simp [passOk] at h2
      | ok r2 =>
        dsimp only
        exact seq_second_pass_success el cc q w.pass3 w.pdf_exists _ _ _ h3

theorem compile_sequence_success (ban el : String) (cc bc : List String) (b q : Bool)
    (w : CompileWorld) (h : seq_completes b q w = true) :
    (compile_sequence ban el cc bc b q w).1.success = w.pdf_exists := by
  unfold seq_completes at h
  rw [Bool.and_assoc, Bool.and_eq_true] at h
  obtain ⟨h1, h23⟩ := h
  rw [Bool.and_eq_true] at h23
  obtain ⟨h2, h3⟩ := h23
  unfold compile_sequence
  cases hp : w.pass1 with
  | exn e => rw [hp] at h1; simp [passExitZero] at h1
  | ok r1 =>
    rw [hp] at h1
    simp only [passExitZero, beq_iff_eq] at h1
    dsimp only
    rw [if_neg (by simp [h1])]
    apply seq_bib_stage_success
    · intro hba
      simp [hba] at h2
      exact ⟨h2.1, h2.2⟩
    · intro hq
      simp [hq] at h3
      exact h3

theorem seq_bib_stage_trace (el : String) (cc bc : List String) (b q : Bool)
    (w : CompileWorld) (so se : List String) :
    ∃ tl, (seq_bib_stage el cc bc b q w so se).2 = ⟨cc, some 180⟩ :: tl ∧
      ∀ inv ∈ tl, inv.timeout = none := by
  unfold seq_bib_stage
  cases hba : b && w.aux_exists with
  | false =>
    simp only [Bool.false_eq_true, if_false]
    rw [seq_second_pass_trace]
    cases q with
    | false => exact ⟨[⟨cc, none⟩], by simp, by simp⟩
    | true => exact ⟨[], by simp, by simp⟩
  | true =>
    simp only [if_true]
    cases hb : w.bibPass with
    | exn e => exact ⟨[⟨bc, none⟩], by simp, by simp⟩
    | ok rb =>
      dsimp only
      cases hp2 : w.pass2 with
      | exn e => exact ⟨[⟨bc, none⟩, ⟨cc, none⟩], by simp, by simp⟩
      | ok r2 =>
        dsimp only
        rw [seq_second_pass_trace]
        cases q with
        | false => exact ⟨[⟨bc, none⟩, ⟨cc, none⟩, ⟨cc, none⟩], by simp, by simp⟩
        | true => exact ⟨[⟨bc, none⟩, ⟨cc, none⟩], by simp, by simp⟩

theorem compile_sequence_trace (ban el : String) (cc bc : List String) (b q : Bool)
    (w : CompileWorld) :
    ∃ tl, (compile_sequence ban el cc bc b q w).2 = ⟨cc, some 180⟩ :: tl ∧
      ∀ inv ∈ tl, inv.timeout = none := by
  unfold compile_sequence
  cases hp : w.pass1 with
  | exn e => exact ⟨[], rfl, by simp⟩
  | ok r1 =>
    dsimp only
    by_cases h0 : r1.returncode ≠ 0
    · rw [if_pos h0]
      exact ⟨[], rfl, by simp⟩
    · rw [if_neg h0]
      exact seq_bib_stage_trace el cc bc b q w _ _

theorem compile_sequence_two_passes (ban el : String) (cc bc : List String) (b : Bool)
    (w : CompileWorld) (h1 : passExitZero w.pass1 = true)
    (h2 : (b && w.aux_exists) = true → passOk w.bibPass = true) :
    2 ≤ countCompilePasses cc (compile_sequence ban el cc bc b false w).2 := by
  unfold compile_sequence
  cases hp : w.pass1 with
  | exn e => rw [hp] at h1; simp [passExitZero] at h1
  | ok r1 =>
    rw [hp] at h1
    simp only [passExitZero, beq_iff_eq] at h1
    dsimp only
    rw [if_neg (by simp [h1])]
    unfold seq_bib_stage
    cases hba : b && w.aux_exists with
    | false =>
      simp only [Bool.false_eq_true, if_false]
      rw [seq_second_pass_trace]
      simp [countCompilePasses, List.countP_append, List.countP_cons]
    | true =>
      simp only [if_true]
      cases hb : w.bibPass with
      | exn e => rw [hb] at h2; simp [hba, passOk] at h2
      | ok rb =>
        dsimp only
        cases hp2 : w.pass2 with
        | exn e =>
          simp only [countCompilePasses, List.countP_cons, List.countP_nil]
          split <;> simp_all
        | ok r2 =>
          dsimp only
          rw [seq_second_pass_trace]
          simp only [Bool.not_false, if_true, countCompilePasses, List.countP_append,
            List.countP_cons, List.countP_nil]
          split <;> simp_all

/-! Helper lemmas about the quality parser and the log scraper. -/

theorem quality_scan_suggestions (ls : List String) : ∀ st : QualityScan,
    (ls.foldl quality_scan_line st).suggestions =
      st.suggestions ++ (ls.filter suggestion_cond).map py_strip := by
  induction ls with
  | nil => intro st; simp
  | cons l rest ih =>
    intro st
    rw [List.foldl_cons, ih, List.filter_cons]
    by_cases h1 : strContains l err_marker = true
    · have hc : suggestion_cond l = false := by simp [suggestion_cond, h1]
      rw [hc]
      unfold quality_scan_line
      rw [if_pos h1]
      cases hm : marker_count err_marker l <;> simp
    · rw [Bool.not_eq_true] at h1
      by_cases h2 : strContains l warn_marker = true
      · have hc : suggestion_cond l = false := by simp [suggestion_cond, h2]
        rw [hc]
        unfold quality_scan_line
        rw [if_neg (by simp [h1]), if_pos h2]
        cases hm : marker_count warn_marker l <;> simp
      · rw [Bool.not_eq_true] at h2
        by_cases h3 : (strStartsWith (py_strip l) "1." || strStartsWith (py_strip l) "2."
            || strStartsWith (py_strip l) "3." || strStartsWith (py_strip l) "4."
            || strStartsWith (py_strip l) "5.") = true
        · have hc : suggestion_cond l = true := by simp [suggestion_cond, h1, h2, h3]
          rw [hc]
          unfold quality_scan_line
          rw [if_neg (by simp [h1]), if_neg (by simp [h2]), if_pos h3]
          simp
        · rw [Bool.not_eq_true] at h3
          have hc : suggestion_cond l = false := by simp [suggestion_cond, h1, h2, h3]
          rw [hc]
          unfold quality_scan_line
          rw [if_neg (by simp [h1]), if_neg (by simp [h2]), if_neg (by simp [h3])]
          simp

theorem quality_scan_line_errors_of_none (st : QualityScan) (line : String)
    (h : sets_error_count line = false) :
    (quality_scan_line st line).errors = st.errors := by
  unfold sets_error_count at h
  unfold quality_scan_line
  by_cases h1 : strContains line err_marker = true
  · rw [if_pos h1]
    cases hm : marker_count err_marker line with
    | none => rfl
    | some k => rw [h1, hm] at h; simp at h
  · rw [if_neg h1]
    by_cases h2 : strContains line warn_marker = true
    · rw [if_pos h2]
      cases hm : marker_count warn_marker line <;> rfl
    · rw [if_neg h2]
      by_cases h3 : (strStartsWith (py_strip line) "1." || strStartsWith (py_strip line) "2."
          || strStartsWith (py_strip line) "3." || strStartsWith (py_strip line) "4."
          || strStartsWith (py_strip line) "5.") = true
      · rw [if_pos h3]
      · rw [if_neg h3]

theorem quality_scan_line_warnings_of_none (st : QualityScan) (line : String)
    (h : sets_warning_count line = false) :
    (quality_scan_line st line).warnings = st.warnings := by
  unfold sets_warning_count at h
  unfold quality_scan_line
  by_cases h1 : strContains line err_marker = true
  · rw [if_pos h1]
    cases hm : marker_count err_marker line <;> rfl
  · rw [if_neg h1]
    rw [Bool.not_eq_true] at h1
    by_cases h2 : strContains line warn_marker = true
    · rw [if_pos h2]
      cases hm : marker_count warn_marker line with
      | none => rfl
      | some k => rw [h1, h2, hm] at h; simp at h
    · rw [if_neg h2]
      by_cases h3 : (strStartsWith (py_strip line) "1." || strStartsWith (py_strip line) "2."
          || strStartsWith (py_strip line) "3." || strStartsWith (py_strip line) "4."
          || strStartsWith (py_strip line) "5.") = true
      · rw [if_pos h3]
      · rw [if_neg h3]

theorem quality_scan_line_errors_set (st : QualityScan) (line : String) (n : Int)
    (h1 : strContains line err_marker = true)
    (hn : marker_count err_marker line = some n) :
    (quality_scan_line st line).errors = n := by
  unfold quality_scan_line
  rw [if_pos h1, hn]

theorem quality_scan_line_warnings_set (st : QualityScan) (line : String) (m : Int)
    (h1 : strContains line err_marker = false)
    (h2 : strContains line warn_marker = true)
    (hm : marker_count warn_marker line = some m) :
    (quality_scan_line st line).warnings = m := by
  unfold quality_scan_line
  rw [if_neg (by simp [h1]), if_pos h2, hm]

theorem foldl_errors_of_none (ls : List String) : ∀ st : QualityScan,
    (∀ l ∈ ls, sets_error_count l = false) →
    (ls.foldl quality_scan_line st).errors = st.errors := by
  induction ls with
  | nil => intro st _; rfl
  | cons l rest ih =>
    intro st h
    rw [List.foldl_cons, ih _ (fun x hx => h x (List.mem_cons_of_mem l hx))]
    exact quality_scan_line_errors_of_none st l (h l (List.mem_cons_self l rest))

theorem foldl_warnings_of_none (ls : List String) : ∀ st : QualityScan,
    (∀ l ∈ ls, sets_warning_count l = false) →
    (ls.foldl quality_scan_line st).warnings = st.warnings := by
  induction ls with
  | nil => intro st _; rfl
  | cons l rest ih =>
    intro st h
    rw [List.foldl_cons, ih _ (fun x hx => h x (List.mem_cons_of_mem l hx))]
    exact quality_scan_line_warnings_of_none st l (h l (List.mem_cons_self l rest))

theorem subAt_map_toLower (t : List Char) : ∀ s : List Char, subAt s t = true →
    subAt (s.map Char.toLower) (t.map Char.toLower) = true := by
  induction t with
  | nil => intro s _; cases s <;> simp [subAt]
  | cons b t2 ih =>
    intro s h
    cases s with
    | nil => simp [subAt] at h
    | cons a s2 =>
      simp only [subAt, Bool.and_eq_true, beq_iff_eq] at h
      obtain ⟨hab, ht⟩ := h
      simp only [List.map_cons, subAt, Bool.and_eq_true, beq_iff_eq]
      exact ⟨by rw [hab], ih s2 ht⟩

theorem hasSub_map_toLower (t : List Char) : ∀ s : List Char, hasSub s t = true →
    hasSub (s.map Char.toLower) (t.map Char.toLower) = true := by
  intro s
  induction s with
  | nil => cases t <;> simp [hasSub]
  | cons a s2 ih =>
    cases t with
    | nil => intro _; simp [hasSub]
    | cons b t2 =>
      intro h
      simp only [hasSub, Bool.or_eq_true] at h
      simp only [List.map_cons, hasSub, Bool.or_eq_true]
      rcases h with h | h
      · left
        have := subAt_map_toLower (b :: t2) (a :: s2) h
        simpa using this
      · right
        exact ih h

theorem strContains_error_of_Error (line : String)
    (h : strContains line "Error" = true) :
    strContains (strToLower line) "error" = true := by
  unfold strContains at *
  unfold strToLower
  have he : ("Error".data.map Char.toLower) = "error".data := by decide
  have hm := hasSub_map_toLower "Error".data line.data h
  rw [he] at hm
  exact hm

theorem error_line_cond_eq_spec (line : String) :
    error_line_cond line = spec_error_cond line := by
  unfold error_line_cond spec_error_cond
  cases h2 : strContains line "Error" with
  | false => simp
  | true =>
    have h3 := strContains_error_of_Error line h2
    simp [h3]

theorem scan_error_lines_eq_filter (ls : List String) :
    scan_error_lines ls = (ls.filter error_line_cond).map py_strip := by
  induction ls with
  | nil => rfl
  | cons l rest ih =>
    unfold scan_error_lines
    cases h : error_line_cond l <;> simp [List.filter_cons, h, ih]

/-! The claims. -/

/-- C1: for every compile request whose first compiler pass completes the
dispatch sequence (first pass exits 0 and no later invocation raises), the
succeeded flag of the outcome is true exactly when the expected PDF artifact
exists on disk after all passes — the world component pdf_exists — and this
holds whatever the exit codes of the bibliography pass and the later
compiler passes are, on both the docker compose path and the latex-engine
container path. -/
theorem C1_succeeded_iff_artifact (dc dbc cc cbc : List String) (b q : Bool)
    (w : CompileWorld) (h : seq_completes b q w = true) :
    (run_docker_compilation_seq dc dbc b q w).1.success = w.pdf_exists ∧
    (run_direct_latex_compilation_seq cc cbc b q w).1.success = w.pdf_exists :=
  ⟨compile_sequence_success _ _ _ _ _ _ _ h, compile_sequence_success _ _ _ _ _ _ _ h⟩

theorem C1_succeeded_iff_artifact_witness :
    (run_docker_compilation_seq ["docker"] ["bibtex"] false true
      ⟨.ok ⟨0, "", ""⟩, .ok ⟨0, "", ""⟩, .ok ⟨0, "", ""⟩, .ok ⟨5, "", ""⟩, true, true⟩).1.success = true ∧
    (run_direct_latex_compilation_seq ["engine"] ["bib"] false true
      ⟨.ok ⟨0, "", ""⟩, .ok ⟨0, "", ""⟩, .ok ⟨0, "", ""⟩, .ok ⟨5, "", ""⟩, true, true⟩).1.success = true :=
  C1_succeeded_iff_artifact ["docker"] ["bibtex"] ["engine"] ["bib"] false true
    ⟨.ok ⟨0, "", ""⟩, .ok ⟨0, "", ""⟩, .ok ⟨0, "", ""⟩, .ok ⟨5, "", ""⟩, true, true⟩ (by decide)

/-- C2 counterexample: with quickMode off, no bibliography, and a successful
first pass, the compose sequence issues a second compiler pass whose
subprocess.run call carries no timeout argument, refuting the claim that
every compile-pass invocation runs under its own 180 second timeout. -/
theorem C2_counterexample :
    (run_docker_compilation_seq ["c"] ["b"] false false
      ⟨.ok ⟨0, "", ""⟩, .ok ⟨0, "", ""⟩, .ok ⟨0, "", ""⟩, .ok ⟨0, "", ""⟩, true, true⟩).2 =
      [⟨["c"], some 180⟩, ⟨["c"], none⟩] ∧
    (none : Option Nat) ≠ some 180 := by decide

/-- C2 amended: in both compilation sequences only the first compiler pass
runs under a timeout (180 seconds); every later invocation — the
bibliography pass and any further compiler pass — is executed with no
timeout at all; the generic branch of the process runner uses a 300 second
timeout for its single invocation. -/
theorem C2_amended_timeouts (dc dbc cc cbc gcmd : List String) (b q : Bool)
    (w : CompileWorld) (o : GenericOutcome) :
    (∃ tl, (run_docker_compilation_seq dc dbc b q w).2 = ⟨dc, some 180⟩ :: tl ∧
        ∀ inv ∈ tl, inv.timeout = none) ∧
    (∃ tl, (run_direct_latex_compilation_seq cc cbc b q w).2 = ⟨cc, some 180⟩ :: tl ∧
        ∀ inv ∈ tl, inv.timeout = none) ∧
    (run_command_core gcmd o).2 = [⟨gcmd, some 300⟩] := by
  refine ⟨compile_sequence_trace _ _ _ _ _ _ _, compile_sequence_trace _ _ _ _ _ _ _, ?_⟩
  cases o <;> rfl

/-- C3 counterexample: a request with quickMode=false whose first pass exits
nonzero aborts after a single compiler pass, refuting the unconditional
claim that at least two compiler passes are always invoked when quickMode is
false. -/
theorem C3_counterexample :
    countCompilePasses ["c"] (run_docker_compilation_seq ["c"] ["b"] false false
      ⟨.ok ⟨1, "", ""⟩, .ok ⟨0, "", ""⟩, .ok ⟨0, "", ""⟩, .ok ⟨0, "", ""⟩, true, true⟩).2 = 1 ∧
    ¬ (2 ≤ 1) := by decide

/-- C3 amended: for every compile request with quickMode=false whose first
compiler pass exits with code 0, and whose bibliography invocation (when one
is attempted) does not raise, at least two compiler passes are invoked in
sequence with the identical command, hence over the same source file; on
both execution paths. -/
theorem C3_two_passes (dc dbc cc cbc : List String) (b : Bool) (w : CompileWorld)
    (h1 : passExitZero w.pass1 = true)
    (h2 : (b && w.aux_exists) = true → passOk w.bibPass = true) :
    2 ≤ countCompilePasses dc (run_docker_compilation_seq dc dbc b false w).2 ∧
    2 ≤ countCompilePasses cc (run_direct_latex_compilation_seq cc cbc b false w).2 :=
  ⟨compile_sequence_two_passes _ _ _ _ _ _ h1 h2,
   compile_sequence_two_passes _ _ _ _ _ _ h1 h2⟩

theorem C3_two_passes_witness :
    2 ≤ countCompilePasses ["d"] (run_docker_compilation_seq ["d"] ["db"] false false
      ⟨.ok ⟨0, "", ""⟩, .ok ⟨0, "", ""⟩, .ok ⟨0, "", ""⟩, .ok ⟨0, "", ""⟩, false, true⟩).2 ∧
    2 ≤ countCompilePasses ["c"] (run_direct_latex_compilation_seq ["c"] ["cb"] false false
      ⟨.ok ⟨0, "", ""⟩, .ok ⟨0, "", ""⟩, .ok ⟨0, "", ""⟩, .ok ⟨0, "", ""⟩, false, true⟩).2 :=
  C3_two_passes ["d"] ["db"] ["c"] ["cb"] false
    ⟨.ok ⟨0, "", ""⟩, .ok ⟨0, "", ""⟩, .ok ⟨0, "", ""⟩, .ok ⟨0, "", ""⟩, false, true⟩
    (by decide) (by decide)

/-- C4 counterexample: when the server detects it is inside the managed
container, the command it runs does not start with the compiler binary — it
starts with docker, because the code bridges into the sibling
api-latex-engine-1 container via docker exec, refuting the claim of a direct
local invocation. -/
theorem C4_counterexample :
    dispatch_env true "/app" = ExecPath.directEngine ∧
    (direct_compile_cmd "courses/a/output" "courses/a/main.tex" "lualatex").getD 0 "" = "docker" ∧
    ("docker" : String) ≠ "lualatex" := by decide

/-- C4 amended: when the dispatcher detects it is running inside the managed
container (the known mount path exists and the project root is under it), it
takes the run_direct_latex_compilation path, whose compile and bibtex
commands are docker exec bridges into the sibling latex-engine container,
with the compiler binary only appearing as the fourth argv element. -/
theorem C4_engine_bridge (app_mount : Bool) (root out_rel tex_rel base compiler : String)
    (h : is_in_docker app_mount root = true) :
    dispatch_env app_mount root = ExecPath.directEngine ∧
    (direct_compile_cmd out_rel tex_rel compiler).take 3 = ["docker", "exec", "api-latex-engine-1"] ∧
    (direct_compile_cmd out_rel tex_rel compiler).getD 3 "" = compiler ∧
    (direct_bibtex_cmd out_rel base).take 3 = ["docker", "exec", "api-latex-engine-1"] := by
  refine ⟨?_, rfl, rfl, rfl⟩
  unfold dispatch_env
  rw [if_pos h]

theorem C4_engine_bridge_witness :
    dispatch_env true "/app" = ExecPath.directEngine ∧
    (direct_compile_cmd "o" "t" "lualatex").take 3 = ["docker", "exec", "api-latex-engine-1"] ∧
    (direct_compile_cmd "o" "t" "lualatex").getD 3 "" = "lualatex" ∧
    (direct_bibtex_cmd "o" "b").take 3 = ["docker", "exec", "api-latex-engine-1"] :=
  C4_engine_bridge true "/app" "o" "t" "b" "lualatex" (by decide)

/-- C5 counterexample: on timeout the process runner returns the stderr text
Command timed out after 5 minutes, which is not equal to the claimed exact
text timed out. -/
theorem C5_counterexample :
    (run_command_core ["x"] GenericOutcome.timedOut).1.stderr = "Command timed out after 5 minutes" ∧
    ("Command timed out after 5 minutes" : String) ≠ "timed out" := by decide

/-- C5 amended: on timeout the generic process runner returns
succeeded=false, exitCode=-1 and stderr equal to the fixed text Command
timed out after 5 minutes, which contains timed out as a substring; on a
raised launch failure it returns succeeded=false, exitCode=-1 and the
exception text in stderr; on completion success is exactly the returncode
test; totality of run_command_core over every outcome models that no
exception escapes the runner. -/
theorem C5_runner_failures (cmd : List String) (msg : String) (r : ProcResult) :
    (run_command_core cmd .timedOut).1 = ⟨false, -1, "", "Command timed out after 5 minutes"⟩ ∧
    strContains (run_command_core cmd .timedOut).1.stderr "timed out" = true ∧
    (run_command_core cmd (.raised msg)).1.success = false ∧
    (run_command_core cmd (.raised msg)).1.returncode = -1 ∧
    (run_command_core cmd (.raised msg)).1.stderr = msg ∧
    (run_command_core cmd (.completed r)).1.success = (r.returncode == 0) := by
  refine ⟨rfl, ?_, rfl, rfl, rfl, rfl⟩
  show strContains "Command timed out after 5 minutes" "timed out" = true
  decide

/-- C6 counterexample: with two error-marker lines in the output the parser
reports the count of the last one, 5, not of the first occurrence, 2 —
refuting the claim that the counts come from the first occurrence of the
marker phrases. -/
theorem C6_counterexample :
    (parse_quality_output ("❌ エラー: 2個" ++ "\n" ++ "❌ エラー: 5個")).errors = 5 ∧
    (5 : Int) ≠ 2 := by decide

/-- C6 amended: the parser scans every line; a line containing the error
marker whose extracted text parses as an integer overwrites the error count,
and a line containing the warning marker (and not the error marker) whose
extracted text parses overwrites the warning count, so for each counter the
last such line in the output determines it — later lines that do not
overwrite that counter leave it unchanged; a marker line whose digits fail
to parse is skipped and leaves the state unchanged, for either marker; the
suggestion list is exactly the stripped lines that contain neither marker
and start, once stripped, with one of the ordinals 1. through 5., in
original order. -/
theorem C6_parser_behaviour (pre post pre2 post2 : List String)
    (ln ln2 ln3 ln4 : String) (st st2 st3 st4 : QualityScan) (n m : Int) (out : String)
    (hc : strContains ln err_marker = true)
    (hn : marker_count err_marker ln = some n)
    (hpost : ∀ l ∈ post, sets_error_count l = false)
    (hc2e : strContains ln2 err_marker = false)
    (hc2 : strContains ln2 warn_marker = true)
    (hm : marker_count warn_marker ln2 = some m)
    (hpost2 : ∀ l ∈ post2, sets_warning_count l = false)
    (hc3 : strContains ln3 err_marker = true)
    (hbad3 : marker_count err_marker ln3 = none)
    (hc4e : strContains ln4 err_marker = false)
    (hc4 : strContains ln4 warn_marker = true)
    (hbad4 : marker_count warn_marker ln4 = none) :
    (List.foldl quality_scan_line st (pre ++ ln :: post)).errors = n ∧
    (List.foldl quality_scan_line st2 (pre2 ++ ln2 :: post2)).warnings = m ∧
    quality_scan_line st3 ln3 = st3 ∧
    quality_scan_line st4 ln4 = st4 ∧
    (parse_quality_output out).suggestions =
      ((pySplit out "\n").filter suggestion_cond).map py_strip := by
  refine ⟨?_, ?_, ?_, ?_, ?_⟩
  · rw [List.foldl_append, List.foldl_cons, foldl_errors_of_none post _ hpost]
    exact quality_scan_line_errors_set _ ln n hc hn
  · rw [List.foldl_append, List.foldl_cons, foldl_warnings_of_none post2 _ hpost2]
    exact quality_scan_line_warnings_set _ ln2 m hc2e hc2 hm
  · unfold quality_scan_line
    rw [if_pos hc3, hbad3]
  · unfold quality_scan_line
    rw [if_neg (by simp [hc4e]), if_pos hc4, hbad4]
  · unfold parse_quality_output
    rw [quality_scan_suggestions]
    simp

theorem C6_parser_behaviour_witness :
    (List.foldl quality_scan_line ⟨0, 0, []⟩
      (["❌ エラー: 2個"] ++ "❌ エラー: 5個" :: ["plain tail line"])).errors = 5 ∧
    (List.foldl quality_scan_line ⟨0, 0, []⟩
      (["⚠️  警告: 7個"] ++ "⚠️  警告: 3個" :: ["plain tail line"])).warnings = 3 ∧
    quality_scan_line ⟨0, 0, []⟩ "❌ エラー: abc個" = ⟨0, 0, []⟩ ∧
    quality_scan_line ⟨0, 0, []⟩ "⚠️  警告: ?個" = ⟨0, 0, []⟩ ∧
    (parse_quality_output "1. fix spacing").suggestions =
      ((pySplit "1. fix spacing" "\n").filter suggestion_cond).map py_strip :=
  C6_parser_behaviour ["❌ エラー: 2個"] ["plain tail line"] ["⚠️  警告: 7個"] ["plain tail line"]
    "❌ エラー: 5個" "⚠️  警告: 3個" "❌ エラー: abc個" "⚠️  警告: ?個"
    ⟨0, 0, []⟩ ⟨0, 0, []⟩ ⟨0, 0, []⟩ ⟨0, 0, []⟩ 5 3 "1. fix spacing"
    (by decide) (by decide) (by decide) (by decide) (by decide) (by decide)
    (by decide) (by decide) (by decide) (by decide) (by decide) (by decide)

/-- C7 counterexample: the parsed counts e=2, w=3 give quality_score 45, and
the code maps 45 to the level poor (45 is below the needs_improvement
threshold of 50), not to needs_improvement as the claim states. -/
theorem C7_counterexample :
    parse_quality_output ("❌ エラー: 2個" ++ "\n" ++ "⚠️  警告: 3個") = ⟨2, 3, []⟩ ∧
    quality_score 2 3 = 45 ∧
    quality_level (quality_score 2 3) = "poor" ∧
    ("poor" : String) ≠ "needs_improvement" := by decide

/-- C7 amended: quality_score = max(0, 100 - 20 e - 5 w); the level is
excellent exactly when the score is at least 90, good exactly on [70,90),
needs_improvement exactly on [50,70), and poor exactly below 50; in
particular e=2, w=3 yields score 45 and level poor. -/
theorem C7_score_and_level (e w s : Int) :
    quality_score e w = max 0 (100 - 20 * e - 5 * w) ∧
    (quality_level s = "excellent" ↔ 90 ≤ s) ∧
    (quality_level s = "good" ↔ 70 ≤ s ∧ s < 90) ∧
    (quality_level s = "needs_improvement" ↔ 50 ≤ s ∧ s < 70) ∧
    (quality_level s = "poor" ↔ s < 50) ∧
    quality_score 2 3 = 45 ∧ quality_level (quality_score 2 3) = "poor" := by
  refine ⟨?_, ?_, ?_, ?_, ?_, by decide, by decide⟩
  · unfold quality_score
    rw [mul_comm e 20, mul_comm w 5]
  all_goals
    unfold quality_level
    split_ifs <;> simp_all <;> omega

/-- C8: for every log content, the scraper returns exactly the stripped
lines that begin with the TeX error marker or contain error
case-insensitively, in original order, capped at the first 10 matches; a
missing or unreadable log yields no error lines rather than a failure. -/
theorem C8_log_scraper (content : String) :
    log_error_lines (some content) =
      (((pySplit content "\n").filter spec_error_cond).map py_strip).take 10 ∧
    (log_error_lines (some content)).length ≤ 10 ∧
    log_error_lines none = [] := by
  refine ⟨?_, ?_, rfl⟩
  · unfold log_error_lines
    dsimp only
    rw [scan_error_lines_eq_filter]
    congr 2
    exact List.filter_congr fun x _ => error_line_cond_eq_spec x
  · unfold log_error_lines
    dsimp only
    simp only [List.length_take]
    omega

/-- C9: deleting an existing directory that contains no entry named main.tex
(the Path.exists probe over files and directories fails) returns the 400
validation failure Invalid project directory and performs no filesystem
mutation: the filesystem after the handler equals the one before. -/
theorem C9_delete_validation (root pp : String) (fs : Fs)
    (hdir : fs.dirs.contains (root ++ "/" ++ pp) = true)
    (hmain : fsExists fs (root ++ "/" ++ pp ++ "/main.tex") = false) :
    (delete_project root fs pp).1.status = 400 ∧
    (delete_project root fs pp).1.success = false ∧
    (delete_project root fs pp).1.message = "Invalid project directory" ∧
    (delete_project root fs pp).2 = fs := by
  have hex : fsExists fs (root ++ "/" ++ pp) = true := by
    unfold fsExists
    rw [hdir]
    rfl
  have hdm : root ++ "/" ++ pp ∈ fs.dirs := by simpa using hdir
  have hd : delete_project root fs pp = (⟨400, false, "Invalid project directory"⟩, fs) := by
    unfold delete_project
    simp [hex, hdm, hmain]
  rw [hd]
  exact ⟨rfl, rfl, rfl, rfl⟩

theorem C9_delete_validation_witness :
    (delete_project "root" ⟨["root/p"], ["root/p/notes.txt"]⟩ "p").1.status = 400 ∧
    (delete_project "root" ⟨["root/p"], ["root/p/notes.txt"]⟩ "p").1.success = false ∧
    (delete_project "root" ⟨["root/p"], ["root/p/notes.txt"]⟩ "p").1.message =
      "Invalid project directory" ∧
    (delete_project "root" ⟨["root/p"], ["root/p/notes.txt"]⟩ "p").2 =
      ⟨["root/p"], ["root/p/notes.txt"]⟩ :=
  C9_delete_validation "root" "p" ⟨["root/p"], ["root/p/notes.txt"]⟩ (by decide) (by decide)

/-- C10: on an existing file the quality check handler always returns the
envelope with success=true and status 200, whatever the script result was —
including the runner outcomes for a nonzero exit, a timeout or a launch
failure — and the script result is reported only in the data field
check_successful. -/
theorem C10_envelope_success_decoupled (r : CmdResult) (cmd : List String)
    (o : GenericOutcome) :
    (quality_check_handler true true r).success = true ∧
    (quality_check_handler true true r).status = 200 ∧
    ((quality_check_handler true true r).data.map fun d => d.check_successful) = some r.success ∧
    (quality_check_handler true true (run_command_core cmd o).1).success = true :=
  ⟨rfl, rfl, rfl, rfl⟩

end QuickLatex
